import Mathlib

/-!
Verification of the DocVector vector-store abstraction layer (workstream A of
the epic document): distance-to-score conversion, metric mapping, the Qdrant
and Chroma adapters' collection operations, the configuration validators of
the factory, and the hybrid scorer.

The Python sources are embedded shallowly: machine floats become exact
rationals (ℚ), dictionaries become association lists, `Optional` becomes
`Option`, raised exceptions become `Except` values drawn from the error
taxonomy, and the filesystem is a probe record passed explicitly.
-/

namespace DocVector

/-- ASCII lower-casing of one character, as Python `str.lower` acts on the
ASCII range relevant to metric names. -/
def lower_char (c : Char) : Char :=
  if 65 ≤ c.toNat ∧ c.toNat ≤ 90 then Char.ofNat (c.toNat + 32) else c

/-- Embedding of Python `str.lower()` (ASCII range). -/
def lower_string (s : String) : String := ⟨s.data.map lower_char⟩

/-- Does the character list start with the given pattern? -/
def starts_with : List Char → List Char → Bool
  | [], _ => true
  | _ :: _, [] => false
  | a :: as, b :: bs => a = b && starts_with as bs

/-- Does the character list contain the pattern as a contiguous run? -/
def has_sub (pat : List Char) : List Char → Bool
  | [] => pat.isEmpty
  | c :: rest => starts_with pat (c :: rest) || has_sub pat rest

/-- Embedding of Python `sub in s` substring containment. -/
def contains_sub (s pat : String) : Bool := has_sub pat.data s.data

/-- Embedding of `os.path.dirname`: everything before the last slash
(empty when there is no slash). -/
def os_path_dirname (p : String) : String :=
  ⟨((p.data.reverse.dropWhile (fun c => c ≠ '/')).drop 1).reverse⟩

/-- The error taxonomy of the adapter contract.  Backend-native failures are
translated into these at the boundary (`ValueError`/`RuntimeError` and
`VectorDBConfigurationError` in the Python source). -/
inductive VectorDBError where
  | notFound
  | alreadyExists
  | dimensionMismatch
  | notInitialized
  | backendUnavailable
  | invalidArgument
  | configurationError (msg : String)
deriving DecidableEq

/-- One search hit as returned through the contract: id plus normalized
score (payload omitted; it plays no role in the scoring claims). -/
structure VectorSearchResult where
  id : String
  score : ℚ

/-! ### Embedded (ChromaDB) adapter: metric mapping and score conversion
From `chroma_client.py` as quoted in the epic document. -/

/-- The `metric_map` dictionary of `ChromaVectorDB.create_collection`:
standard metric name to ChromaDB HNSW space name; `Dict.get` semantics. -/
def metric_map (m : String) : Option String :=
  if m = "cosine" then some "cosine"
  else if m = "euclidean" then some "l2"
  else if m = "dot" then some "ip"
  else none

/-- `metric_map.get(distance_metric.lower(), "cosine")`: the mapped metric,
silently defaulting to `"cosine"` when the name is not recognized. -/
def chroma_mapped_metric (distance_metric : String) : String :=
  (metric_map (lower_string distance_metric)).getD "cosine"

/-- `ChromaVectorDB._distance_to_score`: converts a raw ChromaDB distance to
a score, dispatching on the ChromaDB space name.  The Python function has no
final `else`, so an unrecognized space yields `None`. -/
def distance_to_score (distance : ℚ) (metric : String) : Option ℚ :=
  if metric = "cosine" then some (max 0 (min 1 (1 - distance / 2)))
  else if metric = "l2" then some (1 / (1 + distance))
  else if metric = "ip" then some (max 0 (min 1 (-distance)))
  else none

/-- Clamping of `x` into `[lo, hi]`, as the spec writes `clamp(x, lo, hi)`. -/
def clamp (x lo hi : ℚ) : ℚ := max lo (min hi x)

/-- The conversion exactly as the spec words it, keyed by the standard
metric name (accepting the engine-side aliases `l2` and `ip` as the spec
does when it writes "euclidean/l2" and "dot/ip"). -/
def spec_claimed_score (metric : String) (distance : ℚ) : ℚ :=
  if metric = "cosine" then clamp (1 - distance / 2) 0 1
  else if metric = "euclidean" ∨ metric = "l2" then 1 / (1 + distance)
  else if metric = "dot" ∨ metric = "ip" then clamp (-distance) 0 1
  else 0

/-- Modelled from the spec: `ChromaVectorDB._process_results` is only called,
never quoted, in the sources; per the spec the adapter converts every raw
(id, distance) pair through `_distance_to_score` before returning it. -/
def chroma_process_results (metric : String) (raw : List (String × ℚ)) :
    List VectorSearchResult :=
  raw.filterMap (fun p => (distance_to_score p.2 metric).map (fun s => ⟨p.1, s⟩))

/-! ### Embedded adapter: collection store -/

/-- One ChromaDB collection with the metadata written at creation
(`hnsw:space` and `dimension`) and its stored point ids. -/
structure ChromaCollection where
  name : String
  hnsw_space : String
  dimension : ℕ
  points : List String

/-- The dictionary returned by `get_collection_info`. -/
structure ChromaInfo where
  name : String
  dimension : ℕ
  distance_metric : String
  vector_count : ℕ
deriving DecidableEq

/-- The embedded adapter's collection store. -/
structure ChromaState where
  collections : List ChromaCollection

/-- Look a collection up by name. -/
def chroma_find (st : ChromaState) (name : String) : Option ChromaCollection :=
  st.collections.find? (fun c => c.name = name)

/-- `ChromaVectorDB.create_collection`: fails with `AlreadyExists` when the
name is taken, otherwise creates the collection with metadata
`hnsw:space = metric_map.get(metric.lower(), "cosine")` and
`dimension = dimension`, as in the epic's metadata-storage fragment. -/
def chroma_create_collection (st : ChromaState) (name : String) (dimension : ℕ)
    (distance_metric : String) : ChromaState × Except VectorDBError Unit :=
  if (chroma_find st name).isSome then (st, .error .alreadyExists)
  else (⟨st.collections ++ [⟨name, chroma_mapped_metric distance_metric, dimension, []⟩]⟩,
        .ok ())

/-- Modelled from the spec: `ChromaVectorDB.get_collection_info` is not
quoted in the sources; per the spec it reads dimension and metric back from
the collection metadata stored at creation rather than inferring them from
the engine. -/
def chroma_get_collection_info (st : ChromaState) (name : String) : Option ChromaInfo :=
  (chroma_find st name).map (fun c => ⟨c.name, c.dimension, c.hnsw_space, c.points.length⟩)

/-! ### Remote (Qdrant) adapter
From `qdrant_client.py` as quoted in the epic document. -/

/-- The `qdrant_client.models.Distance` enumeration. -/
inductive QdrantDistance where
  | COSINE
  | EUCLID
  | DOT
deriving DecidableEq

/-- The `distance_map` dictionary of `QdrantVectorDB.create_collection`. -/
def distance_map (m : String) : Option QdrantDistance :=
  if m = "cosine" then some .COSINE
  else if m = "euclidean" then some .EUCLID
  else if m = "dot" then some .DOT
  else none

/-- `distance_map.get(distance_metric.lower(), models.Distance.COSINE)`. -/
def qdrant_mapped_metric (distance_metric : String) : QdrantDistance :=
  (distance_map (lower_string distance_metric)).getD .COSINE

/-- One stored Qdrant point: id plus payload (string-keyed metadata). -/
structure QdrantPoint where
  id : String
  payload : List (String × String)
deriving DecidableEq

/-- The filter built by `_build_filter` from an equality-conditions dict:
a point matches when every (key, value) pair occurs in its payload. -/
def qdrant_filter_matches (filters : List (String × String)) (p : QdrantPoint) : Bool :=
  filters.all (fun kv => p.payload.contains kv)

/-- `QdrantVectorDB.delete`: raises `ValueError` (`InvalidArgument`) when
both `ids` and `filters` are `None`; otherwise reads the point count, deletes
by ids when `ids` is truthy, deletes by filter when `filters` is truthy,
reads the count again and returns `max(0, pre_count - post_count)`.  The
collection is the point list; the returned pair is (new points, result). -/
def qdrant_delete (ids : Option (List String)) (filters : Option (List (String × String)))
    (points : List QdrantPoint) : List QdrantPoint × Except VectorDBError ℤ :=
  if ids = none ∧ filters = none then (points, .error .invalidArgument)
  else
    let pre : ℤ := points.length
    let afterIds : List QdrantPoint :=
      match ids with
      | some l => if l.isEmpty then points else points.filter (fun p => !l.contains p.id)
      | none => points
    let post : List QdrantPoint :=
      match filters with
      | some f => if f.isEmpty then afterIds
                  else afterIds.filter (fun p => !qdrant_filter_matches f p)
      | none => afterIds
    (post, .ok (max 0 (pre - post.length)))

/-- The vector parameters Qdrant reports for a collection:
`config.params.vectors.size`, `.distance`, and `points_count`. -/
structure QdrantRawInfo where
  size : ℕ
  distance : QdrantDistance
  points_count : Option ℕ
deriving DecidableEq

/-- Outcome of one remote call: a value, a not-found failure (missing
collection), or any other backend/connection failure. -/
inductive QdrantCall (α : Type) where
  | success (value : α)
  | notFoundFailure
  | backendFailure
deriving DecidableEq

/-- `str(config.distance)` for the Qdrant distance enumeration. -/
def qdrant_distance_repr : QdrantDistance → String
  | .COSINE => "Distance.COSINE"
  | .EUCLID => "Distance.EUCLID"
  | .DOT => "Distance.DOT"

/-- The metric name `get_collection_info` reports: `str(...).lower()`, then
replaced by `"cosine"` when it contains "cosine", then by `"euclidean"` when
it contains "euclid". -/
def qdrant_metric_back (d : QdrantDistance) : String :=
  let s0 := lower_string (qdrant_distance_repr d)
  let s1 := if contains_sub s0 "cosine" then "cosine" else s0
  if contains_sub s1 "euclid" then "euclidean" else s1

/-- The dictionary `QdrantVectorDB.get_collection_info` returns on success. -/
structure QdrantInfoDict where
  name : String
  dimension : ℕ
  vector_count : Option ℕ
  distance_metric : String
deriving DecidableEq

/-- `QdrantVectorDB.get_collection_info`: the whole body is wrapped in
`try ... except Exception: return None`, so no error ever escapes (hence the
always-`ok` outer `Except`).  `client_ready` is whether `self.client` is
still `None` (before `initialize()`): the attribute access on `None` raises
inside the `try` and is swallowed like every other failure. -/
def qdrant_get_collection_info (client_ready : Bool) (name : String)
    (backend : QdrantCall QdrantRawInfo) : Except VectorDBError (Option QdrantInfoDict) :=
  .ok (if client_ready then
        match backend with
        | .success info => some ⟨name, info.size, info.points_count,
                                 qdrant_metric_back info.distance⟩
        | .notFoundFailure => none
        | .backendFailure => none
      else none)

/-! ### Configuration validators and factory
From `__init__.py` (`_validate_qdrant_config`, `_validate_chroma_config`,
`get_vector_db`) as quoted in the epic document. -/

/-- Python truthiness of an optional string setting. -/
def truthy_str : Option String → Bool
  | none => false
  | some s => s ≠ ""

/-- The connection-related settings the Qdrant validator reads. -/
structure QdrantConnSettings where
  qdrant_url : Option String
  qdrant_api_key : Option String
  qdrant_host : Option String
  qdrant_port : ℤ

def qdrant_api_key_missing_msg : String :=
  "Qdrant URL provided but API key missing. Set DOCVECTOR_QDRANT_API_KEY for cloud deployment."

def qdrant_url_missing_msg : String :=
  "Qdrant API key provided but URL missing. Set DOCVECTOR_QDRANT_URL for cloud deployment."

def qdrant_host_missing_msg : String :=
  "Qdrant host not configured. Set DOCVECTOR_QDRANT_HOST or DOCVECTOR_QDRANT_URL."

def qdrant_bad_port_msg (port : ℤ) : String :=
  "Invalid Qdrant port: " ++ toString port ++ ". Must be a positive integer."

/-- `_validate_qdrant_config`: pure over the settings (no I/O).  Cloud mode
passes when URL and key are both truthy; URL without key and key without URL
each fail with a `ConfigurationError` naming the missing setting; otherwise
self-hosted host/port are checked. -/
def validate_qdrant_config (s : QdrantConnSettings) : Except VectorDBError Unit :=
  if truthy_str s.qdrant_url && truthy_str s.qdrant_api_key then .ok ()
  else if truthy_str s.qdrant_url then
    .error (.configurationError qdrant_api_key_missing_msg)
  else if truthy_str s.qdrant_api_key then
    .error (.configurationError qdrant_url_missing_msg)
  else if !truthy_str s.qdrant_host then
    .error (.configurationError qdrant_host_missing_msg)
  else if s.qdrant_port ≤ 0 then
    .error (.configurationError (qdrant_bad_port_msg s.qdrant_port))
  else .ok ()

/-- Which Qdrant deployment the factory constructs. -/
inductive QdrantDeployment where
  | cloud
  | selfHosted
deriving DecidableEq

/-- The cloud/hybrid branch of `get_vector_db`: validate, then construct the
cloud adapter when URL and key are both set, the self-hosted one otherwise. -/
def qdrant_backend_choice (s : QdrantConnSettings) : Except VectorDBError QdrantDeployment :=
  match validate_qdrant_config s with
  | .error e => .error e
  | .ok _ =>
    if truthy_str s.qdrant_url && truthy_str s.qdrant_api_key then .ok .cloud
    else .ok .selfHosted

def chroma_dir_missing_msg : String :=
  "ChromaDB persist directory not configured. Set DOCVECTOR_CHROMA_PERSIST_DIRECTORY environment variable."

def chroma_unwritable_msg (parent : String) : String :=
  "ChromaDB persist directory parent " ++ parent ++ " is not writable. Check file permissions."

/-- The filesystem probes `_validate_chroma_config` performs:
`os.path.exists` and `os.access(_, os.W_OK)`. -/
structure FileSystemProbe where
  pathExists : String → Bool
  pathWritable : String → Bool

/-- `os.path.dirname(persist_dir) or "."`. -/
def chroma_parent_dir (persist_dir : String) : String :=
  let d := os_path_dirname persist_dir
  if d = "" then "." else d

/-- `_validate_chroma_config`: error when the persist path is empty; error
when the parent directory exists and the writability probe fails; ok
otherwise. -/
def validate_chroma_config (fs : FileSystemProbe) (persist_dir : String) :
    Except VectorDBError Unit :=
  if persist_dir = "" then .error (.configurationError chroma_dir_missing_msg)
  else
    let parent := chroma_parent_dir persist_dir
    if fs.pathExists parent && !fs.pathWritable parent then
      .error (.configurationError (chroma_unwritable_msg parent))
    else .ok ()

/-- The local branch of `get_vector_db`: validate, then construct the
embedded adapter over the persist directory (represented by that path). -/
def get_vector_db_local (fs : FileSystemProbe) (persist_dir : String) :
    Except VectorDBError String :=
  match validate_chroma_config fs persist_dir with
  | .error e => .error e
  | .ok _ => .ok persist_dir

/-! ### Hybrid scorer
Modelled from the spec: the hybrid search implementation
(`hybrid_search.py`) is not among the repository sources; only its weight
settings appear in the README.  Per the spec, `combined(id) =
w_v * vectorScore(id) + w_k * keywordScore(id)` over every id in either
list, a missing score counting as zero, sorted descending by combined score
with ties broken by id. -/

/-- One (id, score) entry of a vector or keyword result list. -/
structure ScoredItem where
  id : String
  score : ℚ

/-- The score a result list assigns to an id, zero when absent. -/
def scoreOf (xs : List ScoredItem) (i : String) : ℚ :=
  match xs.find? (fun x => x.id = i) with
  | some x => x.score
  | none => 0

/-- Insert into a list sorted descending by score, ties ascending by id. -/
def insertScored (x : ScoredItem) : List ScoredItem → List ScoredItem
  | [] => [x]
  | y :: ys =>
    if y.score < x.score ∨ (x.score = y.score ∧ x.id ≤ y.id) then x :: y :: ys
    else y :: insertScored x ys

/-- Insertion sort: descending by score, ties ascending by id. -/
def sortScored (l : List ScoredItem) : List ScoredItem := l.foldr insertScored []

/-- Deduplicate an id list. -/
def dedup_ids : List String → List String
  | [] => []
  | i :: rest =>
    let r := dedup_ids rest
    if i ∈ r then r else i :: r

/-- Default vector weight (`DOCVECTOR_SEARCH_VECTOR_WEIGHT=0.7`). -/
def default_vector_weight : ℚ := 7 / 10

/-- Default keyword weight (`DOCVECTOR_SEARCH_KEYWORD_WEIGHT=0.3`). -/
def default_keyword_weight : ℚ := 3 / 10

/-- Modelled from the spec: the hybrid scorer's weighted fusion of a vector
result list and a keyword result list into one ranked list. -/
def hybrid_combine (wv wk : ℚ) (vec kw : List ScoredItem) : List ScoredItem :=
  let ids := dedup_ids (vec.map (fun x => x.id) ++ kw.map (fun x => x.id))
  sortScored (ids.map (fun i => ⟨i, wv * scoreOf vec i + wk * scoreOf kw i⟩))

/-! ### Helper lemmas -/

theorem mem_insertScored {x a : ScoredItem} {l : List ScoredItem} :
    a ∈ insertScored x l ↔ a = x ∨ a ∈ l := by
  induction l with
  | nil => simp [insertScored]
  | cons y ys ih =>
    simp only [insertScored]
    split
    · simp [List.mem_cons]
    · simp only [List.mem_cons, ih]
      tauto

theorem mem_sortScored {a : ScoredItem} {l : List ScoredItem} :
    a ∈ sortScored l ↔ a ∈ l := by
  induction l with
  | nil => simp [sortScored]
  | cons y ys ih =>
    show a ∈ insertScored y (sortScored ys) ↔ _
    rw [mem_insertScored, ih]
    simp [List.mem_cons]

theorem dedup_ids_cons (j : String) (rest : List String) :
    dedup_ids (j :: rest)
      = if j ∈ dedup_ids rest then dedup_ids rest else j :: dedup_ids rest := rfl

theorem mem_dedup_ids {i : String} {l : List String} : i ∈ dedup_ids l ↔ i ∈ l := by
  induction l generalizing i with
  | nil => simp [dedup_ids]
  | cons j rest ih =>
    rw [dedup_ids_cons]
    by_cases h : j ∈ dedup_ids rest
    · rw [if_pos h, ih]
      have hj : j ∈ rest := ih.mp h
      exact ⟨fun hh => List.mem_cons_of_mem j hh,
             fun hh => (List.mem_cons.mp hh).elim (fun e => e ▸ hj) id⟩
    · rw [if_neg h]
      simp [List.mem_cons, ih]

/-! ### Claim theorems -/

/-- C1: the embedded adapter's distance-to-score conversion computes exactly
the spec's formulas — cosine: `clamp(1 - d/2, 0, 1)`; euclidean/l2:
`1/(1 + d)`; dot/ip: `clamp(-d, 0, 1)` — so every non-negative distance
yields a score in `[0, 1]`; and every result the adapter returns carries a
score obtained from its raw distance by exactly this conversion. -/
theorem embedded_distance_to_score_spec :
    ∀ metric ∈ (["cosine", "euclidean", "dot"] : List String),
      (∀ distance : ℚ, 0 ≤ distance →
        distance_to_score distance (chroma_mapped_metric metric)
            = some (spec_claimed_score metric distance)
          ∧ 0 ≤ spec_claimed_score metric distance
          ∧ spec_claimed_score metric distance ≤ 1)
      ∧ (∀ (raw : List (String × ℚ)) (r : VectorSearchResult),
          r ∈ chroma_process_results (chroma_mapped_metric metric) raw →
          ∃ p ∈ raw, r.id = p.1
            ∧ distance_to_score p.2 (chroma_mapped_metric metric) = some r.score) := by
  have general : ∀ (ms : String) (raw : List (String × ℚ)) (r : VectorSearchResult),
      r ∈ chroma_process_results ms raw →
      ∃ p ∈ raw, r.id = p.1 ∧ distance_to_score p.2 ms = some r.score := by
    intro ms raw r hr
    simp only [chroma_process_results, List.mem_filterMap] at hr
    obtain ⟨p, hp, he⟩ := hr
    rw [Option.map_eq_some'] at he
    obtain ⟨s, hs, hrs⟩ := he
    exact ⟨p, hp, by rw [← hrs], by rw [hs, ← hrs]⟩
  have clamp01_nonneg : ∀ x : ℚ, 0 ≤ max 0 (min 1 x) := fun x => le_max_left 0 _
  have clamp01_le_one : ∀ x : ℚ, max 0 (min 1 x) ≤ 1 :=
    fun x => max_le (by norm_num) (min_le_left 1 x)
  intro metric hm
  have hm3 : metric = "cosine" ∨ metric = "euclidean" ∨ metric = "dot" := by
    simpa using hm
  rcases hm3 with rfl | rfl | rfl
  · have hmap : chroma_mapped_metric "cosine" = "cosine" := by decide
    refine ⟨?_, fun raw r hr => general _ raw r hr⟩
    intro d _
    rw [hmap]
    have e1 : distance_to_score d "cosine" = some (max 0 (min 1 (1 - d / 2))) := by
      unfold distance_to_score
      rw [if_pos rfl]
    have s1 : spec_claimed_score "cosine" d = max 0 (min 1 (1 - d / 2)) := by
      unfold spec_claimed_score clamp
      rw [if_pos rfl]
    rw [e1, s1]
    exact ⟨rfl, clamp01_nonneg _, clamp01_le_one _⟩
  · have hmap : chroma_mapped_metric "euclidean" = "l2" := by decide
    refine ⟨?_, fun raw r hr => general _ raw r hr⟩
    intro d hd
    rw [hmap]
    have e2 : distance_to_score d "l2" = some (1 / (1 + d)) := by
      unfold distance_to_score
      rw [if_neg (by decide), if_pos rfl]
    have s2 : spec_claimed_score "euclidean" d = 1 / (1 + d) := by
      unfold spec_claimed_score
      rw [if_neg (by decide), if_pos (Or.inl rfl)]
    have hpos : (0 : ℚ) < 1 + d := by linarith
    rw [e2, s2]
    refine ⟨rfl, le_of_lt (div_pos one_pos hpos), ?_⟩
    rw [div_le_one hpos]
    linarith
  · have hmap : chroma_mapped_metric "dot" = "ip" := by decide
    refine ⟨?_, fun raw r hr => general _ raw r hr⟩
    intro d _
    rw [hmap]
    have e3 : distance_to_score d "ip" = some (max 0 (min 1 (-d))) := by
      unfold distance_to_score
      rw [if_neg (by decide), if_neg (by decide), if_pos rfl]
    have s3 : spec_claimed_score "dot" d = max 0 (min 1 (-d)) := by
      unfold spec_claimed_score clamp
      rw [if_neg (by decide), if_neg (by decide), if_pos (Or.inl rfl)]
    rw [e3, s3]
    exact ⟨rfl, clamp01_nonneg _, clamp01_le_one _⟩

/-- Witness for C1 at metric "cosine" and distance 1. -/
theorem embedded_distance_to_score_spec_witness :
    distance_to_score 1 (chroma_mapped_metric "cosine")
        = some (spec_claimed_score "cosine" 1)
      ∧ 0 ≤ spec_claimed_score "cosine" 1 ∧ spec_claimed_score "cosine" 1 ≤ 1 :=
  (embedded_distance_to_score_spec "cosine" (by decide)).1 1 (by norm_num)

/-- C2 counterexample: `create_collection` with the unrecognized metric
string "manhattan" does not fail — on a fresh store it returns `ok`, because
both adapters' metric dictionaries silently fall back to cosine
(`metric_map.get(..., "cosine")` / `distance_map.get(..., Distance.COSINE)`),
contradicting the claim that an unrecognized metric is a validation error. -/
theorem unrecognized_metric_silent_default_cx :
    (chroma_create_collection ⟨[]⟩ "docs" 3 "manhattan").2 = .ok ()
      ∧ chroma_mapped_metric "manhattan" = "cosine"
      ∧ qdrant_mapped_metric "manhattan" = .COSINE :=
  ⟨rfl, by decide, by decide⟩

/-- C2 (amended): `createCollection` never rejects a metric string — any
name whose lower-casing is outside the closed set {cosine, euclidean, dot}
is silently substituted by the default cosine metric in both adapters, and
creation succeeds on a fresh collection name. -/
theorem unrecognized_metric_maps_to_cosine :
    ∀ metric : String,
      lower_string metric ≠ "cosine" → lower_string metric ≠ "euclidean" →
      lower_string metric ≠ "dot" →
      chroma_mapped_metric metric = "cosine"
        ∧ qdrant_mapped_metric metric = .COSINE
        ∧ ∀ (st : ChromaState) (name : String) (dimension : ℕ),
            (chroma_find st name).isSome = false →
            (chroma_create_collection st name dimension metric).2 = .ok () := by
  intro m h1 h2 h3
  have hmap : metric_map (lower_string m) = none := by
    unfold metric_map
    rw [if_neg h1, if_neg h2, if_neg h3]
  have hq : distance_map (lower_string m) = none := by
    unfold distance_map
    rw [if_neg h1, if_neg h2, if_neg h3]
  refine ⟨?_, ?_, ?_⟩
  · unfold chroma_mapped_metric
    rw [hmap]
    rfl
  · unfold qdrant_mapped_metric
    rw [hq]
    rfl
  · intro st name dim hfresh
    unfold chroma_create_collection
    rw [if_neg (by simp [hfresh])]

/-- Witness for C2's amended theorem at metric "l1" on a fresh store. -/
theorem unrecognized_metric_maps_to_cosine_witness :
    chroma_mapped_metric "l1" = "cosine"
      ∧ (chroma_create_collection ⟨[]⟩ "c" 4 "l1").2 = .ok () :=
  ⟨(unrecognized_metric_maps_to_cosine "l1" (by decide) (by decide) (by decide)).1,
   (unrecognized_metric_maps_to_cosine "l1" (by decide) (by decide)
      (by decide)).2.2 ⟨[]⟩ "c" 4 (by decide)⟩

/-- C3: every entry of the hybrid scorer's output scores
`w_v * vectorScore(id) + w_k * keywordScore(id)` with missing scores exactly
zero; every id of either input list appears with that combined score; the
default weights are 0.7 and 0.3; and on vector results `[a: 0.9]` with
keyword results `[a: 0.5, b: 0.8]` the default-weight output is the ordered
list `[a: 0.78, b: 0.24]`. -/
theorem hybrid_scorer_weighted_sum :
    (∀ (wv wk : ℚ) (vec kw : List ScoredItem) (x : ScoredItem),
        x ∈ hybrid_combine wv wk vec kw →
        x.score = wv * scoreOf vec x.id + wk * scoreOf kw x.id)
    ∧ (∀ (wv wk : ℚ) (vec kw : List ScoredItem) (i : String),
        (i ∈ vec.map (fun v => v.id) ∨ i ∈ kw.map (fun v => v.id)) →
        (⟨i, wv * scoreOf vec i + wk * scoreOf kw i⟩ : ScoredItem)
          ∈ hybrid_combine wv wk vec kw)
    ∧ default_vector_weight = 7 / 10 ∧ default_keyword_weight = 3 / 10
    ∧ hybrid_combine default_vector_weight default_keyword_weight
        [⟨"a", 9 / 10⟩] [⟨"a", 1 / 2⟩, ⟨"b", 4 / 5⟩]
        = [⟨"a", 78 / 100⟩, ⟨"b", 24 / 100⟩] := by
  refine ⟨?_, ?_, rfl, rfl, ?_⟩
  · intro wv wk vec kw x hx
    simp only [hybrid_combine, mem_sortScored, List.mem_map] at hx
    obtain ⟨i, _, rfl⟩ := hx
    rfl
  · intro wv wk vec kw i hi
    simp only [hybrid_combine, mem_sortScored, List.mem_map]
    refine ⟨i, ?_, rfl⟩
    rw [mem_dedup_ids, List.mem_append]
    exact hi
  · have hab : (("a" : String) = "b") = False := eq_false (by decide)
    have hba : (("b" : String) = "a") = False := eq_false (by decide)
    have haa : (("a" : String) = "a") = True := eq_true rfl
    have hbb : (("b" : String) = "b") = True := eq_true rfl
    have hids : dedup_ids (List.map (fun x => x.id) [(⟨"a", 9 / 10⟩ : ScoredItem)] ++
        List.map (fun x => x.id) [(⟨"a", 1 / 2⟩ : ScoredItem), ⟨"b", 4 / 5⟩])
        = ["a", "b"] := by decide
    simp only [hybrid_combine, default_vector_weight, default_keyword_weight, hids,
      List.map_cons, List.map_nil, scoreOf, List.find?, haa, hab, hba, hbb,
      decide_True, decide_False, sortScored, List.foldr, insertScored]
    norm_num

/-- Witness for C3's weighted-sum property at the head of the worked
example's output. -/
theorem hybrid_scorer_weighted_sum_witness :
    (⟨"a", (78 : ℚ) / 100⟩ : ScoredItem).score
      = default_vector_weight
          * scoreOf [⟨"a", 9 / 10⟩] (⟨"a", (78 : ℚ) / 100⟩ : ScoredItem).id
        + default_keyword_weight
          * scoreOf [⟨"a", 1 / 2⟩, ⟨"b", 4 / 5⟩] (⟨"a", (78 : ℚ) / 100⟩ : ScoredItem).id :=
  hybrid_scorer_weighted_sum.1 default_vector_weight default_keyword_weight _ _ _
    (by rw [hybrid_scorer_weighted_sum.2.2.2.2]
        exact List.mem_cons_self _ _)

/-- C4: the remote configuration validator — a pure function of the
settings, so it runs before any network I/O — fails with a
`ConfigurationError` when the URL is set without the API key or the API key
without the URL; the factory then propagates that error rather than falling
back to a self-hosted adapter; and each error message names the specific
missing setting. -/
theorem qdrant_cloud_config_validation :
    ∀ s : QdrantConnSettings,
      (truthy_str s.qdrant_url = true → truthy_str s.qdrant_api_key = false →
        validate_qdrant_config s = .error (.configurationError qdrant_api_key_missing_msg)
          ∧ qdrant_backend_choice s
              = .error (.configurationError qdrant_api_key_missing_msg))
      ∧ (truthy_str s.qdrant_url = false → truthy_str s.qdrant_api_key = true →
        validate_qdrant_config s = .error (.configurationError qdrant_url_missing_msg)
          ∧ qdrant_backend_choice s = .error (.configurationError qdrant_url_missing_msg))
      ∧ (∃ pre post : String,
          qdrant_api_key_missing_msg = pre ++ "DOCVECTOR_QDRANT_API_KEY" ++ post)
      ∧ (∃ pre post : String,
          qdrant_url_missing_msg = pre ++ "DOCVECTOR_QDRANT_URL" ++ post) := by
  intro s
  refine ⟨?_, ?_, ?_, ?_⟩
  · intro hu hk
    have hv : validate_qdrant_config s
        = .error (.configurationError qdrant_api_key_missing_msg) := by
      unfold validate_qdrant_config
      rw [hu, hk]
      rfl
    exact ⟨hv, by unfold qdrant_backend_choice; rw [hv]⟩
  · intro hu hk
    have hv : validate_qdrant_config s
        = .error (.configurationError qdrant_url_missing_msg) := by
      unfold validate_qdrant_config
      rw [hu, hk]
      rfl
    exact ⟨hv, by unfold qdrant_backend_choice; rw [hv]⟩
  · exact ⟨"Qdrant URL provided but API key missing. Set ",
           " for cloud deployment.", by decide⟩
  · exact ⟨"Qdrant API key provided but URL missing. Set ",
           " for cloud deployment.", by decide⟩

/-- Witness for C4 at a settings record with a URL but no API key. -/
theorem qdrant_cloud_config_validation_witness :
    validate_qdrant_config ⟨some "https://x.cloud.qdrant.io", none, none, 6333⟩
        = .error (.configurationError qdrant_api_key_missing_msg)
      ∧ qdrant_backend_choice ⟨some "https://x.cloud.qdrant.io", none, none, 6333⟩
        = .error (.configurationError qdrant_api_key_missing_msg) :=
  (qdrant_cloud_config_validation
    ⟨some "https://x.cloud.qdrant.io", none, none, 6333⟩).1 (by decide) (by decide)

/-- C5: a filter-based delete on the remote adapter returns exactly
`max(0, count_before - count_after)` where the counts are the collection's
point counts immediately before and after the delete, and the returned count
is never negative. -/
theorem qdrant_filter_delete_count :
    ∀ (f : List (String × String)) (points : List QdrantPoint),
      (qdrant_delete none (some f) points).2
          = .ok (max 0 ((points.length : ℤ)
              - ((qdrant_delete none (some f) points).1.length : ℤ)))
        ∧ (0 : ℤ) ≤ max 0 ((points.length : ℤ)
              - ((qdrant_delete none (some f) points).1.length : ℤ)) := by
  intro f points
  have hD : qdrant_delete none (some f) points
      = (if f.isEmpty then points
         else points.filter (fun p => !qdrant_filter_matches f p),
         .ok (max 0 ((points.length : ℤ)
           - ((if f.isEmpty then points
               else points.filter (fun p => !qdrant_filter_matches f p)).length : ℤ)))) := by
    unfold qdrant_delete
    rw [if_neg (by simp)]
  rw [hD]
  exact ⟨rfl, le_max_left 0 _⟩

/-- C6 counterexample: calling the remote adapter's `get_collection_info`
before `initialize()` does not fail with `NotInitialized` — the method's
catch-all exception handler swallows the null-client failure and the call
returns `None` successfully. -/
theorem qdrant_info_before_init_cx :
    qdrant_get_collection_info false "documents" .backendFailure = .ok none
      ∧ qdrant_get_collection_info false "documents" .backendFailure
          ≠ .error .notInitialized :=
  ⟨rfl, by simp [qdrant_get_collection_info]⟩

/-- C6 (amended): the remote adapter's `get_collection_info` invoked before
`initialize()` raises nothing at all: for every possible backend outcome it
returns `None` (the uninitialized-client error is caught by the method's
catch-all handler), rather than failing with a `NotInitialized` error. -/
theorem qdrant_info_uninitialized_returns_none :
    ∀ (name : String) (backend : QdrantCall QdrantRawInfo),
      qdrant_get_collection_info false name backend = .ok none := by
  intro name backend
  rfl

/-- C7: creating a collection on the embedded adapter stores the dimension
and the (mapped) metric explicitly in the collection's metadata, and
`get_collection_info` afterwards returns exactly those stored metadata
values — read back from the metadata record, not inferred. -/
theorem chroma_schema_round_trip :
    ∀ (st : ChromaState) (name : String) (dimension : ℕ) (metric : String),
      chroma_find st name = none →
      (chroma_create_collection st name dimension metric).2 = .ok ()
        ∧ (∃ c : ChromaCollection,
            chroma_find (chroma_create_collection st name dimension metric).1 name = some c
              ∧ c.dimension = dimension ∧ c.hnsw_space = chroma_mapped_metric metric)
        ∧ chroma_get_collection_info (chroma_create_collection st name dimension metric).1
            name = some ⟨name, dimension, chroma_mapped_metric metric, 0⟩ := by
  intro st name dim metric hfresh
  have hbool : (chroma_find st name).isSome = false := by
    rw [hfresh]
    rfl
  have hcr : chroma_create_collection st name dim metric
      = (⟨st.collections ++ [⟨name, chroma_mapped_metric metric, dim, []⟩]⟩, .ok ()) := by
    unfold chroma_create_collection
    rw [if_neg (by simp [hbool])]
  have hfind : chroma_find ⟨st.collections ++ [⟨name, chroma_mapped_metric metric, dim, []⟩]⟩
      name = some ⟨name, chroma_mapped_metric metric, dim, []⟩ := by
    unfold chroma_find at hfresh ⊢
    rw [List.find?_append, hfresh]
    simp [List.find?]
  refine ⟨by rw [hcr], ⟨⟨name, chroma_mapped_metric metric, dim, []⟩, ?_, rfl, rfl⟩, ?_⟩
  · rw [hcr]
    exact hfind
  · rw [hcr]
    unfold chroma_get_collection_info
    rw [hfind]
    rfl

/-- Witness for C7: dimension 384, metric "cosine", fresh store. -/
theorem chroma_schema_round_trip_witness :
    (chroma_create_collection ⟨[]⟩ "docs" 384 "cosine").2 = .ok ()
      ∧ (∃ c : ChromaCollection,
          chroma_find (chroma_create_collection ⟨[]⟩ "docs" 384 "cosine").1 "docs" = some c
            ∧ c.dimension = 384 ∧ c.hnsw_space = chroma_mapped_metric "cosine")
      ∧ chroma_get_collection_info (chroma_create_collection ⟨[]⟩ "docs" 384 "cosine").1
          "docs" = some ⟨"docs", 384, chroma_mapped_metric "cosine", 0⟩ :=
  chroma_schema_round_trip ⟨[]⟩ "docs" 384 "cosine" rfl

/-- C8: `delete` with both `ids` and `filters` absent fails with
`InvalidArgument` and leaves the collection unchanged; with at least one of
them supplied it never produces that error. -/
theorem delete_requires_ids_or_filters :
    (∀ points : List QdrantPoint,
        qdrant_delete none none points = (points, .error .invalidArgument))
    ∧ (∀ (ids : Option (List String)) (filters : Option (List (String × String)))
        (points : List QdrantPoint),
        ids ≠ none ∨ filters ≠ none →
        (qdrant_delete ids filters points).2 ≠ .error .invalidArgument) := by
  constructor
  · intro points
    unfold qdrant_delete
    rw [if_pos ⟨rfl, rfl⟩]
  · intro ids filters points h
    unfold qdrant_delete
    rw [if_neg (by tauto)]
    simp

/-- Witness for C8 at a delete by a single id on an empty collection. -/
theorem delete_requires_ids_or_filters_witness :
    (qdrant_delete (some ["x"]) none []).2 ≠ .error .invalidArgument :=
  delete_requires_ids_or_filters.2 (some ["x"]) none [] (Or.inl (by simp))

/-- C9: the embedded-local configuration validator raises a
`ConfigurationError` when the persist path is empty and when the persist
path's parent directory exists but fails the writability probe; it returns
`ok` exactly when the path is non-empty and the probe does not report an
existing unwritable parent; and the factory's local branch constructs the
adapter only from configurations the validator accepted.  The decision
genuinely consults the filesystem probe (it is a function of `fs`), not the
path string alone. -/
theorem chroma_config_validation :
    ∀ (fs : FileSystemProbe) (persist_dir : String),
      (persist_dir = "" →
        validate_chroma_config fs persist_dir
          = .error (.configurationError chroma_dir_missing_msg))
      ∧ (persist_dir ≠ "" →
         fs.pathExists (chroma_parent_dir persist_dir) = true →
         fs.pathWritable (chroma_parent_dir persist_dir) = false →
         validate_chroma_config fs persist_dir
           = .error (.configurationError
               (chroma_unwritable_msg (chroma_parent_dir persist_dir))))
      ∧ (validate_chroma_config fs persist_dir = .ok () ↔
          persist_dir ≠ ""
            ∧ (fs.pathExists (chroma_parent_dir persist_dir) = true →
               fs.pathWritable (chroma_parent_dir persist_dir) = true))
      ∧ (∀ d : String, get_vector_db_local fs persist_dir = .ok d →
          validate_chroma_config fs persist_dir = .ok () ∧ d = persist_dir) := by
  intro fs p
  refine ⟨?_, ?_, ?_, ?_⟩
  · intro hp
    unfold validate_chroma_config
    rw [if_pos hp]
  · intro hp he hw
    unfold validate_chroma_config
    rw [if_neg hp, if_pos (by rw [he, hw]; rfl)]
  · unfold validate_chroma_config
    by_cases hp : p = ""
    · rw [if_pos hp]
      simp [hp]
    · rw [if_neg hp]
      by_cases hb : (fs.pathExists (chroma_parent_dir p)
          && !fs.pathWritable (chroma_parent_dir p)) = true
      · rw [if_pos hb]
        simp only [Bool.and_eq_true, Bool.not_eq_true'] at hb
        simp [hp, hb.1, hb.2]
      · rw [if_neg hb]
        simp only [Bool.and_eq_true, Bool.not_eq_true', not_and] at hb
        simp only [hp, ne_eq, not_false_eq_true, true_and]
        constructor
        · intro _ he
          have := hb he
          simpa using this
        · intro _
          trivial
  · intro d hd
    unfold get_vector_db_local at hd
    rcases hv : validate_chroma_config fs p with e | u
    · rw [hv] at hd
      exact absurd hd (by simp)
    · rw [hv] at hd
      cases u
      exact ⟨rfl, by simpa using hd.symm⟩

/-- Witness for C9: an existing but unwritable parent directory "./data"
under persist path "./data/chroma" is rejected. -/
theorem chroma_config_validation_witness :
    validate_chroma_config ⟨fun _ => true, fun _ => false⟩ "./data/chroma"
      = .error (.configurationError (chroma_unwritable_msg
          (chroma_parent_dir "./data/chroma"))) :=
  (chroma_config_validation ⟨fun _ => true, fun _ => false⟩ "./data/chroma").2.1
    (by decide) rfl rfl

/-- C10: the remote adapter's `get_collection_info` returns `None` on every
failure — a missing collection and an unavailable backend produce the same
`None` result, so the caller cannot distinguish `NotFound` from
`BackendUnavailable` through this operation. -/
theorem qdrant_info_failures_indistinguishable :
    ∀ (name : String) (backend : QdrantCall QdrantRawInfo),
      (backend = .notFoundFailure ∨ backend = .backendFailure →
        qdrant_get_collection_info true name backend = .ok none)
      ∧ qdrant_get_collection_info true name .notFoundFailure
          = qdrant_get_collection_info true name .backendFailure := by
  intro name backend
  constructor
  · rintro (rfl | rfl) <;> rfl
  · rfl

/-- Witness for C10 at a backend/connection failure on "documents". -/
theorem qdrant_info_failures_indistinguishable_witness :
    qdrant_get_collection_info true "documents" .backendFailure = .ok none :=
  (qdrant_info_failures_indistinguishable "documents" .backendFailure).1 (Or.inr rfl)

end DocVector
